import Mathlib

/- Shallow embedding of the winres resource generator (src/lib.rs): the
escape function, the descriptor model `WindowsResource` with its fluent
mutators, the resource-script serializer `writeResourceFile`, the `compile`
toolchain dispatch, and the SDK include-root computation
`win_sdk_inlcude_root`. Machine integers (u16, u64) are modelled as `Nat`
with explicit truncation by `% 2 ^ 16` where the code casts; a Rust panic is
modelled as `Option.none`; the rendered file is modelled as the `String` of
bytes written (each `writeln!` contributes its text followed by a newline). -/

/- escape_string, src/lib.rs lines 805-822: the escaped form of one
character, in the order of the Rust `match` arms. -/
def escapeChar (c : Char) : List Char :=
  if c = '"' then ['"', '"']
  else if c = '\'' then ['\\', '\'']
  else if c = '\\' then ['\\', '\\']
  else if c = '\n' then ['\\', 'n']
  else if c = '\t' then ['\\', 't']
  else if c = '\r' then ['\\', 'r']
  else [c]

/- The loop of escape_string: each character's escape, in input order. -/
def escapeList : List Char → List Char
  | [] => []
  | c :: cs => escapeChar c ++ escapeList cs

/- escape_string, src/lib.rs lines 805-822. -/
def escape_string (s : String) : String := String.mk (escapeList s.data)

/- Escape table written from the spec's words (section 4.2): double-quote
to two double-quotes; backslash to escaped backslash; single-quote to
escaped single-quote; newline, tab, carriage-return to their two-character
escape forms; all other characters pass through unchanged. -/
def specEscapeChar (c : Char) : String :=
  if c = '"' then String.mk ['"', '"']
  else if c = '\\' then String.mk ['\\', '\\']
  else if c = '\'' then String.mk ['\\', '\'']
  else if c = '\n' then String.mk ['\\', 'n']
  else if c = '\t' then String.mk ['\\', 't']
  else if c = '\r' then String.mk ['\\', 'r']
  else String.mk [c]

/- Order-preserving concatenation of the spec's per-character escapes. -/
def specEscape : List Char → String
  | [] => ""
  | c :: cs => specEscapeChar c ++ specEscape cs

/- The target resource-definition format's unescaping rules, written from
the spec's words (section 8 and claim C5): two double-quotes become one
double-quote; backslash followed by backslash, single-quote, n, t, r
becomes backslash, single-quote, newline, tab, carriage-return; any other
character is read through unchanged. -/
def rcUnescape : List Char → List Char
  | [] => []
  | [c] => [c]
  | c1 :: c2 :: rest =>
    if c1 = '"' then
      if c2 = '"' then '"' :: rcUnescape rest
      else c1 :: rcUnescape (c2 :: rest)
    else if c1 = '\\' then
      if c2 = '\\' then '\\' :: rcUnescape rest
      else if c2 = '\'' then '\'' :: rcUnescape rest
      else if c2 = 'n' then '\n' :: rcUnescape rest
      else if c2 = 't' then '\t' :: rcUnescape rest
      else if c2 = 'r' then '\r' :: rcUnescape rest
      else c1 :: rcUnescape (c2 :: rest)
    else c1 :: rcUnescape (c2 :: rest)

/- String-level unescaping. -/
def rcUnescapeStr (s : String) : String := String.mk (rcUnescape s.data)

/- Lowercase hexadecimal digit string of a natural number, as Rust's
`{:x}` format renders an unsigned integer (no leading zeros, one digit for
zero). -/
def hexDigits (n : Nat) : String := String.mk (Nat.toDigits 16 n)

/- Rust's `{:#x}` format: `0x` followed by the lowercase hex digits. -/
def hexLit (n : Nat) : String := "0x" ++ hexDigits n

/- Rust's `{:04x}` format: lowercase hex digits zero-padded to width 4. -/
def hex04 (n : Nat) : String :=
  String.mk (List.replicate (4 - (hexDigits n).length) '0') ++ hexDigits n

/- Version info field names, src/lib.rs lines 59-78. -/
inductive VersionInfo where
  | FILEVERSION
  | PRODUCTVERSION
  | FILEOS
  | FILETYPE
  | FILESUBTYPE
  | FILEFLAGSMASK
  | FILEFLAGS
deriving DecidableEq, BEq

/- The `{:?}` (Debug) rendering of a VersionInfo variant: its name. -/
def VersionInfo.debugName : VersionInfo → String
  | .FILEVERSION => "FILEVERSION"
  | .PRODUCTVERSION => "PRODUCTVERSION"
  | .FILEOS => "FILEOS"
  | .FILETYPE => "FILETYPE"
  | .FILESUBTYPE => "FILESUBTYPE"
  | .FILEFLAGSMASK => "FILEFLAGSMASK"
  | .FILEFLAGS => "FILEFLAGS"

/- Icon entry, src/lib.rs lines 80-84. -/
structure Icon where
  path : String
  name_id : String
deriving DecidableEq

/- The descriptor, src/lib.rs lines 86-101. The two HashMaps are modelled
as association lists carrying the map's contents in its iteration order
(for a given map value that order is fixed); PathBuf fields are strings. -/
structure WindowsResource where
  toolkit_path : String
  properties : List (String × String)
  version_info : List (VersionInfo × Nat)
  rc_file : Option String
  icons : List Icon
  language : Nat
  manifest : Option String
  manifest_file : Option String
  output_directory : String
  windres_path : String
  ar_path : String
  add_toolkit_include : Bool
  append_rc_content : String
deriving DecidableEq

/- HashMap::insert on the association-list model: replace the value of an
existing key, otherwise add the entry (keys stay unique). -/
def hmInsert [BEq α] : List (α × β) → α → β → List (α × β)
  | [], k, v => [(k, v)]
  | (k0, v0) :: rest, k, v =>
    if k0 == k then (k, v) :: rest else (k0, v0) :: hmInsert rest k v

/- WindowsResource::new, src/lib.rs lines 148-231. The environment-derived
data (cargo properties after the Cargo.toml overlay, the packed version
number, the SDK path, output directory, windres and ar names) are
parameters; the fields set from literals in the source are set here. -/
def newResource (props : List (String × String)) (version : Nat)
    (sdk outDir windres ar : String) : WindowsResource where
  toolkit_path := sdk
  properties := props
  version_info :=
    [(VersionInfo.FILEVERSION, version), (VersionInfo.PRODUCTVERSION, version),
     (VersionInfo.FILEOS, 0x00040004), (VersionInfo.FILETYPE, 1),
     (VersionInfo.FILESUBTYPE, 0), (VersionInfo.FILEFLAGSMASK, 0x3F),
     (VersionInfo.FILEFLAGS, 0)]
  rc_file := none
  icons := []
  language := 0
  manifest := none
  manifest_file := none
  output_directory := outDir
  windres_path := windres
  ar_path := ar
  add_toolkit_include := false
  append_rc_content := ""

namespace WinRes

/- WindowsResource::set, src/lib.rs lines 255-258. -/
def set (r : WindowsResource) (name value : String) : WindowsResource :=
  { r with properties := hmInsert r.properties name value }

/- WindowsResource::set_toolkit_path, src/lib.rs lines 275-278. -/
def set_toolkit_path (r : WindowsResource) (path : String) : WindowsResource :=
  { r with toolkit_path := path }

/- WindowsResource::set_language, src/lib.rs lines 327-330. -/
def set_language (r : WindowsResource) (language : Nat) : WindowsResource :=
  { r with language := language % 2 ^ 16 }

/- WindowsResource::set_icon_with_id, src/lib.rs lines 389-395. -/
def set_icon_with_id (r : WindowsResource) (path name_id : String) : WindowsResource :=
  { r with icons := r.icons ++ [{ path := path, name_id := name_id }] }

/- WindowsResource::set_icon, src/lib.rs lines 338-340. -/
def set_icon (r : WindowsResource) (path : String) : WindowsResource :=
  set_icon_with_id r path ("1")

/- WindowsResource::set_version_info, src/lib.rs lines 399-402. -/
def set_version_info (r : WindowsResource) (field : VersionInfo) (value : Nat) :
    WindowsResource :=
  { r with version_info := hmInsert r.version_info field value }

/- WindowsResource::set_manifest, src/lib.rs lines 425-429. -/
def set_manifest (r : WindowsResource) (manifest : String) : WindowsResource :=
  { r with manifest_file := none, manifest := some manifest }

/- WindowsResource::set_manifest_file, src/lib.rs lines 437-441. -/
def set_manifest_file (r : WindowsResource) (file : String) : WindowsResource :=
  { r with manifest_file := some file, manifest := none }

/- WindowsResource::set_windres_path, src/lib.rs lines 444-447. -/
def set_windres_path (r : WindowsResource) (path : String) : WindowsResource :=
  { r with windres_path := path }

/- WindowsResource::set_ar_path, src/lib.rs lines 450-453. -/
def set_ar_path (r : WindowsResource) (path : String) : WindowsResource :=
  { r with ar_path := path }

/- WindowsResource::add_toolkit_include, src/lib.rs lines 456-459. -/
def add_toolkit_include (r : WindowsResource) (add : Bool) : WindowsResource :=
  { r with add_toolkit_include := add }

/- WindowsResource::set_resource_file, src/lib.rs lines 529-532. -/
def set_resource_file (r : WindowsResource) (path : String) : WindowsResource :=
  { r with rc_file := some path }

/- WindowsResource::append_rc_content, src/lib.rs lines 564-570. -/
def append_rc_content (r : WindowsResource) (content : String) : WindowsResource :=
  let base :=
    if ¬(r.append_rc_content.endsWith "\n" ∨ r.append_rc_content = "") then
      r.append_rc_content ++ "\n"
    else r.append_rc_content
  { r with append_rc_content := base ++ content }

/- WindowsResource::set_output_directory, src/lib.rs lines 576-579. -/
def set_output_directory (r : WindowsResource) (path : String) : WindowsResource :=
  { r with output_directory := path }

end WinRes

/- One mutator call on the descriptor. -/
inductive ResOp where
  | set (name value : String)
  | set_toolkit_path (path : String)
  | set_language (language : Nat)
  | set_icon_with_id (path name_id : String)
  | set_icon (path : String)
  | set_version_info (field : VersionInfo) (value : Nat)
  | set_manifest (manifest : String)
  | set_manifest_file (file : String)
  | set_windres_path (path : String)
  | set_ar_path (path : String)
  | add_toolkit_include (add : Bool)
  | set_resource_file (path : String)
  | append_rc_content (content : String)
  | set_output_directory (path : String)

/- Apply one mutator call. -/
def applyOp (r : WindowsResource) : ResOp → WindowsResource
  | .set n v => WinRes.set r n v
  | .set_toolkit_path p => WinRes.set_toolkit_path r p
  | .set_language l => WinRes.set_language r l
  | .set_icon_with_id p i => WinRes.set_icon_with_id r p i
  | .set_icon p => WinRes.set_icon r p
  | .set_version_info f v => WinRes.set_version_info r f v
  | .set_manifest m => WinRes.set_manifest r m
  | .set_manifest_file f => WinRes.set_manifest_file r f
  | .set_windres_path p => WinRes.set_windres_path r p
  | .set_ar_path p => WinRes.set_ar_path r p
  | .add_toolkit_include b => WinRes.add_toolkit_include r b
  | .set_resource_file p => WinRes.set_resource_file r p
  | .append_rc_content c => WinRes.append_rc_content r c
  | .set_output_directory p => WinRes.set_output_directory r p

/- Apply a sequence of mutator calls, first call first. -/
def applyOps (r : WindowsResource) (ops : List ResOp) : WindowsResource :=
  ops.foldl applyOp r

/- Rust str::lines, as used on the inline manifest: split on newline, a
trailing newline yields no extra empty line, a carriage return preceding a
split point is stripped. -/
def rustLines (s : String) : List String :=
  if s = "" then []
  else
    let parts := s.splitOn "\n"
    let parts := if s.endsWith "\n" then parts.dropLast else parts
    parts.map (fun l => if l.endsWith "\r" then l.dropRight 1 else l)

/- One line of the VERSIONINFO block, src/lib.rs lines 469-482: for
FILEVERSION and PRODUCTVERSION the four 16-bit words of the u64 value,
highest first (`(*v >> 48) as u16` is `(v >>> 48) % 2 ^ 16`), comma
separated; for every other field the `{:#x}` rendering of the raw value. -/
def versionLine (k : VersionInfo) (v : Nat) : String :=
  match k with
  | .FILEVERSION | .PRODUCTVERSION =>
    k.debugName ++ " " ++ toString ((v >>> 48) % 2 ^ 16) ++ ", "
      ++ toString ((v >>> 32) % 2 ^ 16) ++ ", " ++ toString ((v >>> 16) % 2 ^ 16)
      ++ ", " ++ toString (v % 2 ^ 16)
  | _ => k.debugName ++ " " ++ hexLit v

/- The string-table block key, src/lib.rs line 484: `{:04x}` of the
language followed by the fixed codepage suffix. -/
def stringBlockKey (lang : Nat) : String := hex04 lang ++ "04b0"

/- One VALUE line of the string table, src/lib.rs lines 485-494: skipped
when the value is empty, key and value escaped. -/
def propertyLine (k v : String) : String :=
  if v = "" then ""
  else "VALUE \"" ++ escape_string k ++ "\", \"" ++ escape_string v ++ "\"\n"

/- The VarFileInfo translation line, src/lib.rs line 498: `{:#x}` of the
language then the literal codepage `0x04b0`. -/
def translationLine (lang : Nat) : String :=
  "VALUE \"Translation\", " ++ hexLit lang ++ ", 0x04b0"

/- One icon line, src/lib.rs lines 500-507: the escaped name id, the ICON
keyword, the escaped path in quotes. -/
def iconLine (i : Icon) : String :=
  escape_string i.name_id ++ " ICON \"" ++ escape_string i.path ++ "\"\n"

/- The manifest entry, src/lib.rs lines 508-519: present only when
FILETYPE is in the version map; an inline manifest is written line by line
(trimmed and escaped, between quotes), otherwise a manifest file is
written as a quoted escaped path, otherwise nothing. -/
def manifestSection (r : WindowsResource) : String :=
  match List.lookup VersionInfo.FILETYPE r.version_info with
  | some e =>
    match r.manifest with
    | some manf =>
      toString e ++ " 24\n" ++ "\x7b\n"
        ++ String.join ((rustLines manf).map
            (fun line => "\" " ++ escape_string line.trim ++ " \"\n"))
        ++ "\x7d\n"
    | none =>
      match r.manifest_file with
      | some manf => toString e ++ " 24 \"" ++ escape_string manf ++ "\"\n"
      | none => ""
  | none => ""

/- WindowsResource::write_resource_file, src/lib.rs lines 462-522: the
full text written to the resource file (braces appear as \x7b, \x7d). -/
def writeResourceFile (r : WindowsResource) : String :=
  "#pragma code_page(65001)\n"
    ++ "1 VERSIONINFO\n"
    ++ String.join (r.version_info.map (fun kv => versionLine kv.1 kv.2 ++ "\n"))
    ++ "\x7b\nBLOCK \"StringFileInfo\"\n"
    ++ "\x7b\nBLOCK \"" ++ stringBlockKey r.language ++ "\"\n\x7b\n"
    ++ String.join (r.properties.map (fun kv => propertyLine kv.1 kv.2))
    ++ "\x7d\n\x7d\n"
    ++ "BLOCK \"VarFileInfo\" \x7b\n"
    ++ translationLine r.language ++ "\n"
    ++ "\x7d\n\x7d\n"
    ++ String.join (r.icons.map iconLine)
    ++ manifestSection r
    ++ r.append_rc_content ++ "\n"

/- Outcome of the branch in WindowsResource::compile on the target
toolchain identifier, src/lib.rs lines 638-646. -/
inductive CompileAction where
  | gnuToolkit
  | msvcToolkit
  | configError (msg : String)
deriving DecidableEq

/- The match on CARGO_CFG_TARGET_ENV in WindowsResource::compile,
src/lib.rs lines 638-646: "gnu" and "msvc" dispatch to their toolchains,
anything else is an error and no toolchain is invoked. -/
def compileDispatch (target_env : String) : CompileAction :=
  if target_env = "gnu" then .gnuToolkit
  else if target_env = "msvc" then .msvcToolkit
  else .configError
    "Can only compile resource file when target_env is \"gnu\" or \"msvc\""

/- Rust str::starts_with on the character level. -/
def strStartsWith (s p : String) : Bool := List.isPrefixOf p.data s.data

/- The loop of win_sdk_inlcude_root, src/lib.rs lines 824-841, over the
remaining path components with the components pushed so far; the
`iter.next().unwrap()` after `bin` panics (none) when nothing follows. -/
def winSdkLoop : List String → List String → Option (List String)
  | acc, [] => some acc
  | acc, p :: rest =>
    if p = "bin" then
      match rest with
      | [] => none
      | version :: _ =>
        some (if strStartsWith version ("10.") then acc ++ ["Include", version]
          else acc ++ ["Include"])
    else winSdkLoop (acc ++ [p]) rest

/- win_sdk_inlcude_root, src/lib.rs lines 824-841; a path is its list of
components, a panic is none. -/
def win_sdk_inlcude_root (path : List String) : Option (List String) :=
  winSdkLoop [] path

/- The exclusive-manifest invariant of section 3 of the spec: at most one
of the inline manifest and the manifest file path is set. -/
def manifestExcl (r : WindowsResource) : Prop :=
  r.manifest = none ∨ r.manifest_file = none

/- A sample descriptor used to exercise the serializer. -/
def sampleResA : WindowsResource :=
  newResource [("ProductName", "demo"), ("FileVersion", "1.0.0")] 0x0001000000000000
    ("C:\\Program Files (x86)\\Windows Kits\\10") ("out") ("windres") ("ar")

/- The same serialization-relevant state as sampleResA with different
toolchain-location fields. -/
def sampleResB : WindowsResource :=
  newResource [("ProductName", "demo"), ("FileVersion", "1.0.0")] 0x0001000000000000
    ("/usr/x86_64-w64-mingw32") ("target/out") ("windres.exe") ("ar.exe")

/- The data of the spec-side escape of one character is the code-side
escape of that character. -/
theorem specEscapeChar_data (c : Char) : (specEscapeChar c).data = escapeChar c := by
  unfold specEscapeChar escapeChar
  split_ifs <;> simp_all

/- The code-side escape of a character list is the data of the spec-side
escape. -/
theorem escapeList_eq_data (l : List Char) : escapeList l = (specEscape l).data := by
  induction l with
  | nil => rfl
  | cons c cs ih =>
    simp [escapeList, specEscape, String.data_append, specEscapeChar_data, ih]

/- Unescaping steps over a character that is neither a double quote nor a
backslash. -/
theorem rcUnescape_cons (c : Char) (l : List Char) (h1 : c ≠ '"') (h2 : c ≠ '\\') :
    rcUnescape (c :: l) = c :: rcUnescape l := by
  cases l with
  | nil => rfl
  | cons d t => simp [rcUnescape, h1, h2]

/- Unescaping inverts escaping on character lists. -/
theorem rcUnescape_escapeList (l : List Char) : rcUnescape (escapeList l) = l := by
  induction l with
  | nil => rfl
  | cons c cs ih =>
    by_cases h1 : c = '"'
    · subst h1; simpa [escapeList, escapeChar, rcUnescape] using ih
    · by_cases h2 : c = '\''
      · subst h2; simpa [escapeList, escapeChar, rcUnescape] using ih
      · by_cases h3 : c = '\\'
        · subst h3; simpa [escapeList, escapeChar, rcUnescape] using ih
        · by_cases h4 : c = '\n'
          · subst h4; simpa [escapeList, escapeChar, rcUnescape] using ih
          · by_cases h5 : c = '\t'
            · subst h5; simpa [escapeList, escapeChar, rcUnescape] using ih
            · by_cases h6 : c = '\r'
              · subst h6; simpa [escapeList, escapeChar, rcUnescape] using ih
              · have he : escapeList (c :: cs) = c :: escapeList cs := by
                  simp [escapeList, escapeChar, h1, h2, h3, h4, h5, h6]
                rw [he, rcUnescape_cons c _ h1 h3, ih]

/- Every mutator preserves the exclusive-manifest invariant. -/
theorem applyOp_manifestExcl (r : WindowsResource) (op : ResOp) (h : manifestExcl r) :
    manifestExcl (applyOp r op) := by
  cases op <;>
    simp_all [manifestExcl, applyOp, WinRes.set, WinRes.set_toolkit_path,
      WinRes.set_language, WinRes.set_icon_with_id, WinRes.set_icon,
      WinRes.set_version_info, WinRes.set_manifest, WinRes.set_manifest_file,
      WinRes.set_windres_path, WinRes.set_ar_path, WinRes.add_toolkit_include,
      WinRes.set_resource_file, WinRes.append_rc_content, WinRes.set_output_directory]

/- Every mutator sequence preserves the exclusive-manifest invariant. -/
theorem applyOps_manifestExcl (ops : List ResOp) (r : WindowsResource) (h : manifestExcl r) :
    manifestExcl (applyOps r ops) := by
  induction ops generalizing r with
  | nil => exact h
  | cons op rest ih => exact ih (applyOp r op) (applyOp_manifestExcl r op h)

/- Folding set_icon_with_id over a list appends the icons in call order. -/
theorem foldl_set_icon_icons (adds : List (String × String)) (r : WindowsResource) :
    (adds.foldl (fun s q => WinRes.set_icon_with_id s q.1 q.2) r).icons
      = r.icons ++ adds.map (fun q => { path := q.1, name_id := q.2 }) := by
  induction adds generalizing r with
  | nil => simp
  | cons a rest ih =>
    rw [List.foldl_cons, ih]
    simp [WinRes.set_icon_with_id]

/- The loop of win_sdk_inlcude_root copies every component when no `bin`
component occurs. -/
theorem winSdkLoop_no_bin (l : List String) (h : "bin" ∉ l) (acc : List String) :
    winSdkLoop acc l = some (acc ++ l) := by
  induction l generalizing acc with
  | nil => simp [winSdkLoop]
  | cons p rest ih =>
    have hp : ¬ p = "bin" := by rintro rfl; exact h (List.mem_cons_self _ _)
    have hrest : "bin" ∉ rest := fun hm => h (List.mem_cons_of_mem p hm)
    simp [winSdkLoop, hp, ih hrest]

/- The loop of win_sdk_inlcude_root at the first `bin` component with a
following component: the components before `bin`, then Include, then the
following component when it starts with 10-dot. -/
theorem winSdkLoop_bin (pre : List String) (h : "bin" ∉ pre) (acc : List String)
    (v : String) (rest : List String) :
    winSdkLoop acc (pre ++ "bin" :: v :: rest)
      = some (acc ++ pre
          ++ (if strStartsWith v ("10.") then ["Include", v] else ["Include"])) := by
  induction pre generalizing acc with
  | nil =>
    simp only [List.nil_append, winSdkLoop, if_true, reduceIte]
    split <;> simp
  | cons p ps ih =>
    have hp : ¬ p = "bin" := by rintro rfl; exact h (List.mem_cons_self _ _)
    have hps : "bin" ∉ ps := fun hm => h (List.mem_cons_of_mem p hm)
    simp only [List.cons_append, winSdkLoop, if_neg hp, List.append_eq]
    rw [ih hps]
    simp

/- The loop of win_sdk_inlcude_root panics (none) when the first `bin`
component is the last component. -/
theorem winSdkLoop_bin_last (pre : List String) (h : "bin" ∉ pre) (acc : List String) :
    winSdkLoop acc (pre ++ ["bin"]) = none := by
  induction pre generalizing acc with
  | nil => simp [winSdkLoop]
  | cons p ps ih =>
    have hp : ¬ p = "bin" := by rintro rfl; exact h (List.mem_cons_self _ _)
    have hps : "bin" ∉ ps := fun hm => h (List.mem_cons_of_mem p hm)
    simp only [List.cons_append, winSdkLoop, if_neg hp]
    exact ih hps _

/-- Claim C1: escape_string maps each double-quote to two double-quotes,
each backslash to an escaped backslash, each single-quote to an escaped
single-quote, each newline, tab and carriage-return to its two-character
escape form, leaves every other character unchanged, and preserves
character order: it equals the order-preserving concatenation of the
spec's per-character escape table over the input's characters. -/
theorem claim_C1_escape_matches_spec (s : String) : escape_string s = specEscape s.data := by
  apply String.ext
  show escapeList s.data = (specEscape s.data).data
  exact escapeList_eq_data s.data

/-- Claim C2: for every 64-bit value under FILEVERSION or PRODUCTVERSION
the rendered line holds the four 16-bit words of the value, highest 16
bits first, comma separated; for 0x0001000200030004 the words are
1, 2, 3, 4 in that order; every other version field renders as its raw
value in hexadecimal. -/
theorem claim_C2_version_words (v : Nat) (h : v < 2 ^ 64) :
    versionLine VersionInfo.FILEVERSION v =
      "FILEVERSION " ++ toString (v / 2 ^ 48 % 2 ^ 16) ++ ", "
        ++ toString (v / 2 ^ 32 % 2 ^ 16) ++ ", " ++ toString (v / 2 ^ 16 % 2 ^ 16)
        ++ ", " ++ toString (v % 2 ^ 16)
    ∧ versionLine VersionInfo.PRODUCTVERSION v =
      "PRODUCTVERSION " ++ toString (v / 2 ^ 48 % 2 ^ 16) ++ ", "
        ++ toString (v / 2 ^ 32 % 2 ^ 16) ++ ", " ++ toString (v / 2 ^ 16 % 2 ^ 16)
        ++ ", " ++ toString (v % 2 ^ 16)
    ∧ versionLine VersionInfo.FILEVERSION 0x0001000200030004 = "FILEVERSION 1, 2, 3, 4"
    ∧ versionLine VersionInfo.PRODUCTVERSION 0x0001000200030004 = "PRODUCTVERSION 1, 2, 3, 4"
    ∧ ∀ k : VersionInfo, k ≠ VersionInfo.FILEVERSION → k ≠ VersionInfo.PRODUCTVERSION →
        versionLine k v = k.debugName ++ " " ++ hexLit v := by
  refine ⟨?_, ?_, by decide, by decide, ?_⟩
  · apply String.ext
    simp [versionLine, VersionInfo.debugName, String.data_append,
      Nat.shiftRight_eq_div_pow]
  · apply String.ext
    simp [versionLine, VersionInfo.debugName, String.data_append,
      Nat.shiftRight_eq_div_pow]
  · intro k hk1 hk2
    cases k <;> simp_all [versionLine]

/-- Claim C2 witness: the theorem instantiated at 0x0001000200030004. -/
theorem claim_C2_version_words_witness :
    (0x0001000200030004 : Nat) < 2 ^ 64
    ∧ versionLine VersionInfo.FILEVERSION 0x0001000200030004 = "FILEVERSION 1, 2, 3, 4" :=
  ⟨by decide, (claim_C2_version_words 0x0001000200030004 (by decide)).2.2.1⟩

/-- Claim C3 counterexample: at language 0x0409 the VarFileInfo
translation line is not rendered with the codepage literal 0x4b0; the
code writes the literal 0x04b0. -/
theorem claim_C3_counterexample :
    translationLine 0x409 ≠ "VALUE \"Translation\", 0x409, 0x4b0" := by decide

/-- Claim C3 (amended): at language 0x0409 the string-table block key
renders as 040904b0 and the VarFileInfo translation line renders its
values as 0x409, 0x04b0 (the codepage literal is the zero-padded 0x04b0,
not 0x4b0). -/
theorem claim_C3_language_render :
    stringBlockKey 0x409 = "040904b0"
    ∧ translationLine 0x409 = "VALUE \"Translation\", 0x409, 0x04b0" := by decide

/-- Claim C4: set_manifest sets the inline manifest and clears the
manifest file path, set_manifest_file sets the manifest file path and
clears the inline manifest, and every sequence of mutator calls after
construction leaves at most one of the two fields set. -/
theorem claim_C4_manifest_exclusive :
    (∀ (r : WindowsResource) (m : String),
      (WinRes.set_manifest r m).manifest = some m
        ∧ (WinRes.set_manifest r m).manifest_file = none)
    ∧ (∀ (r : WindowsResource) (file : String),
      (WinRes.set_manifest_file r file).manifest_file = some file
        ∧ (WinRes.set_manifest_file r file).manifest = none)
    ∧ ∀ (props : List (String × String)) (version : Nat) (sdk outDir windres ar : String)
        (ops : List ResOp),
      manifestExcl (applyOps (newResource props version sdk outDir windres ar) ops) := by
  refine ⟨fun r m => ⟨rfl, rfl⟩, fun r f => ⟨rfl, rfl⟩, ?_⟩
  intro props version sdk outDir windres ar ops
  exact applyOps_manifestExcl ops _ (Or.inl rfl)

/-- Claim C5: applying escape_string and then the target format's
unescaping rules reproduces every input string exactly. -/
theorem claim_C5_escape_roundtrip (s : String) : rcUnescapeStr (escape_string s) = s := by
  apply String.ext
  show rcUnescape (escapeList s.data) = s.data
  exact rcUnescape_escapeList s.data

/-- Claim C6: icons added via set_icon_with_id accumulate in insertion
order, the serializer emits exactly one icon line per icon, and each line
is the escaped name id, the ICON keyword, and the escaped path in
quotes. -/
theorem claim_C6_icon_lines (r : WindowsResource) (adds : List (String × String)) :
    (adds.foldl (fun s q => WinRes.set_icon_with_id s q.1 q.2) r).icons
        = r.icons ++ adds.map (fun q => { path := q.1, name_id := q.2 })
    ∧ ((adds.foldl (fun s q => WinRes.set_icon_with_id s q.1 q.2) r).icons.map iconLine).length
        = r.icons.length + adds.length
    ∧ ∀ i : Icon,
        iconLine i = escape_string i.name_id ++ " ICON \"" ++ escape_string i.path ++ "\"\n" :=
  ⟨foldl_set_icon_icons adds r, by simp [foldl_set_icon_icons adds r], fun i => rfl⟩

/-- Claim C7: rendering is a function of the descriptor alone; two
descriptor states that agree on the serialization-relevant fields
(version entries and their order, properties and their order, language,
icons, manifest, manifest file, appended content) render byte-identical
text, whatever their remaining fields. -/
theorem claim_C7_render_deterministic (r1 r2 : WindowsResource)
    (hv : r1.version_info = r2.version_info) (hp : r1.properties = r2.properties)
    (hl : r1.language = r2.language) (hi : r1.icons = r2.icons)
    (hm : r1.manifest = r2.manifest) (hmf : r1.manifest_file = r2.manifest_file)
    (ha : r1.append_rc_content = r2.append_rc_content) :
    writeResourceFile r1 = writeResourceFile r2 := by
  simp only [writeResourceFile, manifestSection, hv, hp, hl, hi, hm, hmf, ha]

/-- Claim C7 witness: two distinct descriptors agreeing on the
serialization-relevant fields render the same text. -/
theorem claim_C7_render_deterministic_witness :
    sampleResA ≠ sampleResB ∧ writeResourceFile sampleResA = writeResourceFile sampleResB :=
  ⟨by decide, claim_C7_render_deterministic sampleResA sampleResB rfl rfl rfl rfl rfl rfl rfl⟩

/-- Claim C8: compile recognizes exactly the target-toolchain identifiers
gnu and msvc; every other identifier yields the configuration error and
dispatches to neither toolchain. -/
theorem claim_C8_dispatch :
    compileDispatch ("gnu") = CompileAction.gnuToolkit
    ∧ compileDispatch ("msvc") = CompileAction.msvcToolkit
    ∧ ∀ s : String, s ≠ "gnu" → s ≠ "msvc" →
        compileDispatch s =
          CompileAction.configError
            "Can only compile resource file when target_env is \"gnu\" or \"msvc\""
        ∧ compileDispatch s ≠ CompileAction.gnuToolkit
        ∧ compileDispatch s ≠ CompileAction.msvcToolkit := by
  refine ⟨by decide, by decide, ?_⟩
  intro s h1 h2
  simp [compileDispatch, h1, h2]

/-- Claim C8 witness: an unrecognized identifier is a configuration
error. -/
theorem claim_C8_dispatch_witness :
    ("x86_64-unknown" : String) ≠ "gnu"
    ∧ ("x86_64-unknown" : String) ≠ "msvc"
    ∧ compileDispatch ("x86_64-unknown") =
        CompileAction.configError
          "Can only compile resource file when target_env is \"gnu\" or \"msvc\"" :=
  ⟨by decide, by decide,
    (claim_C8_dispatch.2.2 ("x86_64-unknown") (by decide) (by decide)).1⟩

/-- Claim C9: for a path whose first bin component is followed by another
component, the SDK include root is the components before bin, then
Include, then the component after bin when that component starts with
10-dot. -/
theorem claim_C9_sdk_include_root (pre : List String) (v : String) (rest : List String)
    (h : "bin" ∉ pre) :
    win_sdk_inlcude_root (pre ++ "bin" :: v :: rest)
      = some (pre ++ (if strStartsWith v ("10.") then ["Include", v] else ["Include"])) := by
  unfold win_sdk_inlcude_root
  simpa using winSdkLoop_bin pre h [] v rest

/-- Claim C9 witness: the two paths from the claim yield the stated
include roots. -/
theorem claim_C9_sdk_include_root_witness :
    win_sdk_inlcude_root
        ["C:", "Program Files (x86)", "Windows Kits", "10", "bin", "10.0.17763.0", "x64",
          "rc.exe"]
      = some ["C:", "Program Files (x86)", "Windows Kits", "10", "Include", "10.0.17763.0"]
    ∧ win_sdk_inlcude_root
        ["C:", "Program Files (x86)", "Windows Kits", "8.1", "bin", "x86", "rc.exe"]
      = some ["C:", "Program Files (x86)", "Windows Kits", "8.1", "Include"] :=
  ⟨(claim_C9_sdk_include_root ["C:", "Program Files (x86)", "Windows Kits", "10"]
      ("10.0.17763.0") ["x64", "rc.exe"] (by decide)).trans (by decide),
   (claim_C9_sdk_include_root ["C:", "Program Files (x86)", "Windows Kits", "8.1"]
      ("x86") ["rc.exe"] (by decide)).trans (by decide)⟩

/-- Claim C10 counterexample: the path bin, bin has bin as its final
component with nothing after that final component, yet
win_sdk_inlcude_root does not panic on it: the first bin is followed by a
component, so the function returns Include. -/
theorem claim_C10_counterexample :
    List.getLast? ["bin", "bin"] = some "bin"
    ∧ win_sdk_inlcude_root ["bin", "bin"] = some ["Include"]
    ∧ win_sdk_inlcude_root ["bin", "bin"] ≠ none := by decide

/-- Claim C10 (amended): win_sdk_inlcude_root panics (unwrap of None)
exactly on paths whose first bin component is the final component, and on
every path containing no bin component it returns the whole input path
with neither Include nor a version segment appended. -/
theorem claim_C10_totality :
    (∀ pre : List String, "bin" ∉ pre → win_sdk_inlcude_root (pre ++ ["bin"]) = none)
    ∧ ∀ comps : List String, "bin" ∉ comps → win_sdk_inlcude_root comps = some comps :=
  ⟨fun pre h => winSdkLoop_bin_last pre h [],
   fun comps h => by simpa using winSdkLoop_no_bin comps h []⟩

/-- Claim C10 witness: a path ending at its only bin component panics; a
path with no bin component is returned unchanged. -/
theorem claim_C10_totality_witness :
    win_sdk_inlcude_root ["C:", "Windows Kits", "bin"] = none
    ∧ win_sdk_inlcude_root ["usr", "lib", "rc.exe"] = some ["usr", "lib", "rc.exe"] :=
  ⟨claim_C10_totality.1 ["C:", "Windows Kits"] (by decide),
   claim_C10_totality.2 ["usr", "lib", "rc.exe"] (by decide)⟩
